import Mathlib

/-!
Verification of the Tinybase core: the schema validation engine
(tinybase-core/src/validation.rs, schema.rs) and the storage layer
(tinybase-core/src/lib.rs) with its two backends, the per-operation
connection backend (impl Db for Database) and the serialized backend
(impl Db for Mutex Connection).

JSON documents are embedded as an inductive value type mirroring
serde_json Value; a JSON object is an association list of string keys
(serde_json Map lookup is by key, so only the lookup function matters).
The SQL tables are embedded as lists of rows, and each storage
operation is the list transformation performed by its SQL statements.
-/

namespace Tinybase

/-- JSON values, mirroring serde_json Value. Number payloads are
collapsed to Int: no checked code inspects the numeric payload, only
the constructor. -/
inductive JsonValue where
  | null
  | bool (b : Bool)
  | num (n : Int)
  | str (s : String)
  | arr (elems : List JsonValue)
  | obj (entries : List (String × JsonValue))

/-- Value::is_string from serde_json. -/
def JsonValue.isString : JsonValue → Bool
  | .str _ => true
  | _ => false

/-- Value::is_number from serde_json. -/
def JsonValue.isNumber : JsonValue → Bool
  | .num _ => true
  | _ => false

/-- Value::is_boolean from serde_json. -/
def JsonValue.isBoolean : JsonValue → Bool
  | .bool _ => true
  | _ => false

/-- Value::is_array from serde_json. -/
def JsonValue.isArray : JsonValue → Bool
  | .arr _ => true
  | _ => false

/-- Value::is_object from serde_json. -/
def JsonValue.isObject : JsonValue → Bool
  | .obj _ => true
  | _ => false

/-- Value::as_object from serde_json: the entry list when the value is
an object, otherwise none. -/
def JsonValue.asObject : JsonValue → Option (List (String × JsonValue))
  | .obj entries => some entries
  | _ => none

/-- Map::get from serde_json: lookup of a key in an object. -/
def mapGet (m : List (String × JsonValue)) (k : String) : Option JsonValue :=
  (m.find? (fun e => e.fst == k)).map Prod.snd

/-- FieldType from schema.rs. -/
inductive FieldType where
  | string
  | text
  | number
  | boolean
  | json
deriving DecidableEq

/-- FieldDefinition from schema.rs. -/
structure FieldDefinition where
  type : FieldType
  required : Bool
  default : Option JsonValue

/-- CollectionSchema from schema.rs: the fields of a HashMap embedded
as the list of its entries (keys unique, iteration order arbitrary;
validation only reads entries one at a time). -/
structure CollectionSchema where
  fields : List (String × FieldDefinition)

/-- ValidationError from validation.rs. -/
inductive ValidationError where
  | missingRequiredField (field : String)
  | invalidType (field expected actual : String)
deriving DecidableEq

/-- get_value_type from validation.rs. -/
def get_value_type : JsonValue → String
  | .null => "null"
  | .bool _ => "boolean"
  | .num _ => "number"
  | .str _ => "string"
  | .arr _ => "array"
  | .obj _ => "object"

/-- is_correct_type from validation.rs. -/
def is_correct_type (value : JsonValue) : FieldType → Bool
  | .string => value.isString
  | .text => value.isString
  | .number => value.isNumber
  | .boolean => value.isBoolean
  | .json => value.isObject || value.isArray

/-- Debug formatting of a FieldType, as produced by the format macro in
validation.rs for the expected component of an InvalidType error. -/
def fieldTypeDebug : FieldType → String
  | .string => "String"
  | .text => "Text"
  | .number => "Number"
  | .boolean => "Boolean"
  | .json => "Json"

/-- Body of the per-field loop of validate_record: the errors pushed
for one declared field. -/
def checkField (dataMap : List (String × JsonValue)) (field : String)
    (fdef : FieldDefinition) : List ValidationError :=
  match mapGet dataMap field with
  | some v =>
      if is_correct_type v fdef.type then []
      else [.invalidType field (fieldTypeDebug fdef.type) (get_value_type v)]
  | none =>
      if fdef.required then [.missingRequiredField field] else []

/-- The error list accumulated by the loop of validate_record over the
declared fields, in iteration order. -/
def fieldErrors (dataMap : List (String × JsonValue)) :
    List (String × FieldDefinition) → List ValidationError
  | [] => []
  | entry :: rest => checkField dataMap entry.1 entry.2 ++ fieldErrors dataMap rest

/-- The full accumulated error list of validate_record, including the
early non-object case. -/
def validationErrors (schema : CollectionSchema) (data : JsonValue) :
    List ValidationError :=
  match data.asObject with
  | none => [.invalidType "data" "object" "not an object"]
  | some m => fieldErrors m schema.fields

/-- validate_record from validation.rs. -/
def validate_record (schema : CollectionSchema) (data : JsonValue) :
    Except (List ValidationError) Unit :=
  match data.asObject with
  | none => .error [.invalidType "data" "object" "not an object"]
  | some dataMap =>
      let errors := fieldErrors dataMap schema.fields
      if errors.isEmpty then .ok () else .error errors

/-- Collection from lib.rs: the value read back from a collections row
by row_to_collection, and also the shape of the row itself (the schema
column stores the JSON serialization of the schema; the serde round
trip is the identity, so the row is embedded with the structured
schema directly). -/
structure Collection where
  id : Int
  name : String
  schema : Option CollectionSchema

/-- A row of the records table: id, collection_id, data (the data
column stores the JSON serialization of the document). -/
structure RecordRow where
  id : Int
  collection_id : Int
  data : JsonValue

/-- Record from lib.rs: the value read back from a records row by
row_to_record, which drops the collection_id column. -/
structure Record where
  id : Int
  data : JsonValue

/-- row_to_record from lib.rs. -/
def rowToRecord (r : RecordRow) : Record :=
  ⟨r.id, r.data⟩

/-- The logical database state: the two tables created by
setup_database, plus the AUTOINCREMENT counters backing the id
columns. -/
structure DbState where
  collections : List Collection
  records : List RecordRow
  nextCollectionId : Int
  nextRecordId : Int

/-- A freshly created database: both tables empty, AUTOINCREMENT
counters starting at 1. -/
def emptyDb : DbState :=
  ⟨[], [], 1, 1⟩

/-- Storage-layer failure produced by an ok_or call on a missing row
in lib.rs (in the source it is a boxed string error, the strings being
exactly the messages carried here). -/
inductive DbError where
  | notFound (msg : String)
deriving DecidableEq

/-- create_collection from lib.rs (both backends): INSERT INTO
collections, returning last_insert_rowid. -/
def create_collection (s : DbState) (name : String)
    (schema : Option CollectionSchema) : Int × DbState :=
  (s.nextCollectionId,
   { s with
       collections := s.collections ++ [⟨s.nextCollectionId, name, schema⟩],
       nextCollectionId := s.nextCollectionId + 1 })

/-- get_collection from lib.rs (both backends): SELECT the first
collections row whose id matches. -/
def get_collection (s : DbState) (id : Int) : Option Collection :=
  s.collections.find? (fun c => c.id == id)

/-- list_collections from lib.rs (both backends): SELECT all
collections rows. -/
def list_collections (s : DbState) : List Collection :=
  s.collections

/-- Effect on one collections row of UPDATE collections SET name. -/
def updName (id : Int) (n : String) (c : Collection) : Collection :=
  if c.id == id then { c with name := n } else c

/-- Effect on one collections row of UPDATE collections SET schema. -/
def updSchema (id : Int) (sc : CollectionSchema) (c : Collection) : Collection :=
  if c.id == id then { c with schema := some sc } else c

/-- update_collection from lib.rs (both backends have the same
statement sequence): optional UPDATE of name, then optional UPDATE of
schema, then a SELECT of the row, with the absent row turned into the
not-found error by ok_or. -/
def update_collection (s : DbState) (id : Int) (name : Option String)
    (schema : Option CollectionSchema) : Except DbError Collection × DbState :=
  let cols1 := match name with
    | some n => s.collections.map (updName id n)
    | none => s.collections
  let cols2 := match schema with
    | some sc => cols1.map (updSchema id sc)
    | none => cols1
  let s1 := { s with collections := cols2 }
  match get_collection s1 id with
  | some c => (.ok c, s1)
  | none => (.error (.notFound "Collection not found"), s1)

/-- delete_collection from lib.rs (both backends): the single
statement DELETE FROM collections WHERE id matches. The records table
is not touched by any statement of this operation, and the schema in
setup_database declares no foreign keys, so the engine performs no
cascade either. -/
def delete_collection (s : DbState) (id : Int) : DbState :=
  { s with collections := s.collections.filter (fun c => !(c.id == id)) }

/-- create_record from lib.rs (both backends): INSERT INTO records,
returning last_insert_rowid. No existence check on the collection. -/
def create_record (s : DbState) (collection_id : Int) (data : JsonValue) :
    Int × DbState :=
  (s.nextRecordId,
   { s with
       records := s.records ++ [⟨s.nextRecordId, collection_id, data⟩],
       nextRecordId := s.nextRecordId + 1 })

/-- list_records from lib.rs (both backends): SELECT all records rows
whose collection_id matches. -/
def list_records (s : DbState) (collection_id : Int) : List Record :=
  (s.records.filter (fun r => r.collection_id == collection_id)).map rowToRecord

/-- get_record from lib.rs (both backends): SELECT the first records
row matching both ids. -/
def get_record (s : DbState) (collection_id record_id : Int) : Option Record :=
  (s.records.find? (fun r => r.collection_id == collection_id && r.id == record_id)).map
    rowToRecord

/-- Effect on one records row of UPDATE records SET data. -/
def updData (collection_id record_id : Int) (d : JsonValue) (r : RecordRow) :
    RecordRow :=
  if r.collection_id == collection_id && r.id == record_id then { r with data := d }
  else r

/-- update_record from lib.rs as implemented for Database (a fresh
connection per statement): UPDATE records SET data on the matching
row, then a get_record read-back, with the absent row turned into the
not-found error by ok_or. The Mutex Connection implementation attempts
the same statement sequence but re-enters its own lock; see the lock
trace model below. -/
def update_record (s : DbState) (collection_id record_id : Int) (d : JsonValue) :
    Except DbError Record × DbState :=
  let s1 := { s with records := s.records.map (updData collection_id record_id d) }
  match get_record s1 collection_id record_id with
  | some r => (.ok r, s1)
  | none => (.error (.notFound "Record not found"), s1)

/-- delete_record from lib.rs (both backends): DELETE FROM records
WHERE both ids match. -/
def delete_record (s : DbState) (collection_id record_id : Int) : DbState :=
  { s with
      records := s.records.filter
        (fun r => !(r.collection_id == collection_id && r.id == record_id)) }

/-- An action on the tokio Mutex guarding the shared connection of the
serialized backend. -/
inductive LockAction where
  | acquire
  | release
deriving DecidableEq

/-- The ten operations of the Db trait. -/
inductive DbOp where
  | createCollection
  | getCollection
  | listCollections
  | updateCollection
  | deleteCollection
  | createRecord
  | listRecords
  | getRecord
  | updateRecord
  | deleteRecord
deriving DecidableEq

/-- The sequence of mutex actions each operation of the Mutex
Connection backend attempts, in program order, read off the source:
every operation calls lock at entry and drops the guard when it
returns on any path; update_record additionally calls the get_record
method of the same backend while its own guard is still alive, nesting
a second acquire and release inside the outer pair. -/
def lockTraceB : DbOp → List LockAction
  | .updateRecord => [.acquire, .acquire, .release, .release]
  | _ => [.acquire, .release]

/-- Execution of a lock action sequence by a single task against a
non-reentrant mutex, starting from the given held state: an acquire
while the lock is already held by this same task never completes
(nobody else can release it), yielding none; otherwise the final held
state is returned. -/
def runTrace : Bool → List LockAction → Option Bool
  | held, [] => some held
  | held, .acquire :: rest => if held then none else runTrace true rest
  | held, .release :: rest => if held then runTrace false rest else none

/-- Concrete required string field used by witnesses, matching the
round-trip schema of the spec and the repository tests. -/
def titleField : FieldDefinition :=
  ⟨.string, true, none⟩

/-- Concrete one-field schema used by witnesses. -/
def titleSchema : CollectionSchema :=
  ⟨[("title", titleField)]⟩

/-- Optional boolean field used by witnesses. -/
def flagField : FieldDefinition :=
  ⟨.boolean, false, none⟩

/-- Concrete schema with a single optional field used by witnesses. -/
def flagSchema : CollectionSchema :=
  ⟨[("flag", flagField)]⟩

lemma validate_record_obj (schema : CollectionSchema)
    (m : List (String × JsonValue)) :
    validate_record schema (.obj m) =
      if (fieldErrors m schema.fields).isEmpty then .ok ()
      else .error (fieldErrors m schema.fields) := rfl

lemma validate_record_error_of_mem {schema : CollectionSchema}
    {m : List (String × JsonValue)} {e : ValidationError}
    (he : e ∈ fieldErrors m schema.fields) :
    validate_record schema (.obj m) = .error (fieldErrors m schema.fields) := by
  have hne : (fieldErrors m schema.fields).isEmpty = false := by
    cases hes : fieldErrors m schema.fields with
    | nil => rw [hes] at he; cases he
    | cons a l => rfl
  rw [validate_record_obj, hne]
  rfl

lemma mem_fieldErrors_of_mem {m : List (String × JsonValue)}
    {e : ValidationError} {F : String} {fdef : FieldDefinition}
    {fields : List (String × FieldDefinition)}
    (hmem : (F, fdef) ∈ fields) (he : e ∈ checkField m F fdef) :
    e ∈ fieldErrors m fields := by
  induction fields with
  | nil => cases hmem
  | cons hd tl ih =>
    rw [fieldErrors]
    rcases List.mem_cons.mp hmem with h | h
    · rw [← h]
      exact List.mem_append_left _ he
    · exact List.mem_append_right _ (ih h)

lemma is_correct_type_null (t : FieldType) : is_correct_type .null t = false := by
  cases t <;> rfl

/-- C2: for every schema and every JSON document that is not a JSON
object, validate_record returns Err with exactly one error,
InvalidType on the pseudo-field data with expected type object, and no
per-field checks are performed. -/
theorem c2_non_object_single_invalid_type_error
    (schema : CollectionSchema) (d : JsonValue) (h : d.asObject = none) :
    validate_record schema d =
      .error [.invalidType "data" "object" "not an object"] := by
  unfold validate_record
  rw [h]

/-- Witness for C2 at a concrete non-object document and a non-empty
schema. -/
theorem c2_non_object_witness :
    validate_record titleSchema (.str "Hello!") =
      .error [.invalidType "data" "object" "not an object"] :=
  c2_non_object_single_invalid_type_error titleSchema (.str "Hello!") rfl

/-- C3: for every schema with a declared required field absent from an
object document, the returned error list contains MissingRequiredField
for that field, regardless of what the other fields of the document
look like: errors accumulate rather than short-circuit. -/
theorem c3_missing_required_field_accumulates
    (schema : CollectionSchema) (m : List (String × JsonValue))
    (F : String) (fdef : FieldDefinition)
    (hmem : (F, fdef) ∈ schema.fields) (hreq : fdef.required = true)
    (habs : mapGet m F = none) :
    ∃ errs, validate_record schema (.obj m) = .error errs ∧
      ValidationError.missingRequiredField F ∈ errs := by
  have he : ValidationError.missingRequiredField F ∈ checkField m F fdef := by
    simp [checkField, habs, hreq]
  have hmm := mem_fieldErrors_of_mem hmem he
  exact ⟨_, validate_record_error_of_mem hmm, hmm⟩

/-- Witness for C3: the round-trip example of the spec, a document
carrying only a wrong field while the required title is absent. -/
theorem c3_missing_required_witness :
    ∃ errs, validate_record titleSchema
        (.obj [("wrong_field", .str "Hello!")]) = .error errs ∧
      ValidationError.missingRequiredField "title" ∈ errs :=
  c3_missing_required_field_accumulates titleSchema
    [("wrong_field", .str "Hello!")] "title" titleField
    (List.mem_cons_self _ _) rfl rfl

/-- C4: the per-field type check accepts exactly the JSON values of
the declared class: string and text accept exactly JSON strings,
number exactly JSON numbers, boolean exactly JSON booleans, and json
exactly JSON objects or arrays, so null and the scalar values never
satisfy type json. -/
theorem c4_type_compatibility_characterization (v : JsonValue) :
    (is_correct_type v .string = true ↔ ∃ s, v = .str s) ∧
    (is_correct_type v .text = true ↔ ∃ s, v = .str s) ∧
    (is_correct_type v .number = true ↔ ∃ n, v = .num n) ∧
    (is_correct_type v .boolean = true ↔ ∃ b, v = .bool b) ∧
    (is_correct_type v .json = true ↔
      ((∃ entries, v = .obj entries) ∨ (∃ elems, v = .arr elems))) := by
  cases v <;>
    simp [is_correct_type, JsonValue.isString, JsonValue.isNumber,
      JsonValue.isBoolean, JsonValue.isObject, JsonValue.isArray]

/-- Witness for C4 at the concrete value null. -/
theorem c4_type_compatibility_witness :
    (is_correct_type .null .string = true ↔ ∃ s, JsonValue.null = .str s) ∧
    (is_correct_type .null .text = true ↔ ∃ s, JsonValue.null = .str s) ∧
    (is_correct_type .null .number = true ↔ ∃ n, JsonValue.null = .num n) ∧
    (is_correct_type .null .boolean = true ↔ ∃ b, JsonValue.null = .bool b) ∧
    (is_correct_type .null .json = true ↔
      ((∃ entries, JsonValue.null = .obj entries) ∨
        (∃ elems, JsonValue.null = .arr elems))) :=
  c4_type_compatibility_characterization .null

/-- C9: a declared field present in the document with value null is
reported as InvalidType whatever the declared type and whatever the
required flag: null is never treated as absence. -/
theorem c9_null_value_invalid_type
    (schema : CollectionSchema) (m : List (String × JsonValue))
    (F : String) (fdef : FieldDefinition)
    (hmem : (F, fdef) ∈ schema.fields) (hval : mapGet m F = some .null) :
    ∃ errs, validate_record schema (.obj m) = .error errs ∧
      ValidationError.invalidType F (fieldTypeDebug fdef.type) "null" ∈ errs := by
  have he : ValidationError.invalidType F (fieldTypeDebug fdef.type) "null" ∈
      checkField m F fdef := by
    simp [checkField, hval, is_correct_type_null, get_value_type]
  have hmm := mem_fieldErrors_of_mem hmem he
  exact ⟨_, validate_record_error_of_mem hmm, hmm⟩

/-- Witness for C9: an optional boolean field set to null is still
flagged. -/
theorem c9_null_value_witness :
    ∃ errs, validate_record flagSchema (.obj [("flag", .null)]) = .error errs ∧
      ValidationError.invalidType "flag" (fieldTypeDebug flagField.type) "null" ∈
        errs :=
  c9_null_value_invalid_type flagSchema [("flag", .null)] "flag" flagField
    (List.mem_cons_self _ _) rfl

/-- C10: validate_record returns Ok exactly when the accumulated
violation list is empty, and it never returns Err carrying an empty
error list. -/
theorem c10_error_list_never_empty (schema : CollectionSchema) (d : JsonValue) :
    (validate_record schema d = .ok () ↔ validationErrors schema d = []) ∧
    validate_record schema d ≠ .error [] := by
  unfold validate_record validationErrors
  cases hd : d.asObject with
  | none => simp
  | some m =>
    simp only []
    cases hes : fieldErrors m schema.fields with
    | nil => simp
    | cons a l => simp

/-- Witness for C10 at a concrete schema and document. -/
theorem c10_error_list_witness :
    (validate_record titleSchema (.obj [("title", .str "Hello!")]) = .ok () ↔
      validationErrors titleSchema (.obj [("title", .str "Hello!")]) = []) ∧
    validate_record titleSchema (.obj [("title", .str "Hello!")]) ≠ .error [] :=
  c10_error_list_never_empty titleSchema (.obj [("title", .str "Hello!")])

lemma mapGet_cons (k : String) (v : JsonValue) (m : List (String × JsonValue))
    (f : String) :
    mapGet ((k, v) :: m) f = if k == f then some v else mapGet m f := by
  simp only [mapGet, List.find?]
  cases h : k == f <;> simp [h]

lemma mapGet_eq_none {m : List (String × JsonValue)} {F : String}
    (h : ∀ q ∈ m, q.1 ≠ F) : mapGet m F = none := by
  unfold mapGet
  have : m.find? (fun e => e.fst == F) = none :=
    List.find?_eq_none.mpr (fun x hx => by simp [h x hx])
  rw [this]
  rfl

lemma fieldErrors_congr {m1 m2 : List (String × JsonValue)} :
    ∀ {fields : List (String × FieldDefinition)},
      (∀ entry ∈ fields, mapGet m1 entry.1 = mapGet m2 entry.1) →
      fieldErrors m1 fields = fieldErrors m2 fields := by
  intro fields
  induction fields with
  | nil => intro _; rfl
  | cons hd tl ih =>
    intro h
    have h1 : checkField m1 hd.1 hd.2 = checkField m2 hd.1 hd.2 := by
      unfold checkField
      rw [h hd (List.mem_cons_self _ _)]
    rw [fieldErrors, fieldErrors, h1,
      ih (fun e he => h e (List.mem_cons_of_mem _ he))]

lemma fieldErrors_nil_of_optional_absent {m : List (String × JsonValue)} :
    ∀ {fields : List (String × FieldDefinition)},
      (∀ entry ∈ fields, entry.2.required = false) →
      (∀ entry ∈ fields, mapGet m entry.1 = none) →
      fieldErrors m fields = [] := by
  intro fields
  induction fields with
  | nil => intro _ _; rfl
  | cons hd tl ih =>
    intro hreq habs
    have h1 := habs hd (List.mem_cons_self _ _)
    have h2 := hreq hd (List.mem_cons_self _ _)
    rw [fieldErrors,
      ih (fun e he => hreq e (List.mem_cons_of_mem _ he))
        (fun e he => habs e (List.mem_cons_of_mem _ he))]
    simp [checkField, h1, h2]

/-- C5: fields of the document that are not declared in the schema
contribute no error: prepending an undeclared field to an object
document leaves the validation result unchanged, and a document made
only of undeclared fields validates successfully against a schema with
no required fields. -/
theorem c5_undeclared_fields_ignored :
    (∀ (schema : CollectionSchema) (m : List (String × JsonValue))
        (k : String) (v : JsonValue),
        k ∉ schema.fields.map Prod.fst →
        validate_record schema (.obj ((k, v) :: m)) =
          validate_record schema (.obj m)) ∧
    (∀ (schema : CollectionSchema) (m : List (String × JsonValue)),
        (∀ entry ∈ schema.fields, entry.2.required = false) →
        (∀ q ∈ m, q.1 ∉ schema.fields.map Prod.fst) →
        validate_record schema (.obj m) = .ok ()) := by
  constructor
  · intro schema m k v hk
    have hcong : ∀ entry ∈ schema.fields,
        mapGet ((k, v) :: m) entry.1 = mapGet m entry.1 := by
      intro entry hentry
      have hne : k ≠ entry.1 := by
        intro he
        exact hk (he ▸ List.mem_map_of_mem Prod.fst hentry)
      rw [mapGet_cons]
      simp [hne]
    rw [validate_record_obj, validate_record_obj, fieldErrors_congr hcong]
  · intro schema m hreq hq
    have habs : ∀ entry ∈ schema.fields, mapGet m entry.1 = none := by
      intro entry hentry
      apply mapGet_eq_none
      intro q hqm he
      exact hq q hqm (he ▸ List.mem_map_of_mem Prod.fst hentry)
    rw [validate_record_obj, fieldErrors_nil_of_optional_absent hreq habs]
    rfl

/-- Witness for C5: an undeclared extra field changes nothing, and a
document of only undeclared fields passes a schema with no required
fields. -/
theorem c5_undeclared_fields_witness :
    validate_record titleSchema
        (.obj [("extra", .num 1), ("title", .str "Hello!")]) =
      validate_record titleSchema (.obj [("title", .str "Hello!")]) ∧
    validate_record flagSchema (.obj [("extra", .num 1)]) = .ok () :=
  ⟨c5_undeclared_fields_ignored.1 titleSchema [("title", .str "Hello!")]
      "extra" (.num 1) (by decide),
   c5_undeclared_fields_ignored.2 flagSchema [("extra", .num 1)]
      (by decide) (by decide)⟩

lemma find?_map_of_pred_inv {α : Type} (f : α → α) (p : α → Bool)
    (hf : ∀ x, p (f x) = p x) :
    ∀ l : List α, (l.map f).find? p = (l.find? p).map f := by
  intro l
  induction l with
  | nil => rfl
  | cons x xs ih =>
    cases hx : p x with
    | false =>
      rw [List.map_cons, List.find?_cons_of_neg _ (by simp [hf, hx]),
        List.find?_cons_of_neg _ (by simp [hx]), ih]
    | true =>
      rw [List.map_cons, List.find?_cons_of_pos _ (by simp [hf, hx]),
        List.find?_cons_of_pos _ (by simp [hx])]
      rfl

lemma find?_map_none {α : Type} {f : α → α} {p : α → Bool}
    (hf : ∀ x, p (f x) = p x) {l : List α} (h : l.find? p = none) :
    (l.map f).find? p = none := by
  rw [find?_map_of_pred_inv f p hf l, h]
  rfl

lemma updName_pred (id : Int) (n : String) :
    ∀ c, ((updName id n c).id == id) = (c.id == id) := by
  intro c
  unfold updName
  split <;> simp_all

lemma updSchema_pred (id : Int) (sc : CollectionSchema) :
    ∀ c, ((updSchema id sc c).id == id) = (c.id == id) := by
  intro c
  unfold updSchema
  split <;> simp_all

lemma updData_pred (cid rid : Int) (d : JsonValue) :
    ∀ r, ((updData cid rid d r).collection_id == cid &&
            (updData cid rid d r).id == rid) =
          (r.collection_id == cid && r.id == rid) := by
  intro r
  unfold updData
  split <;> simp_all

/-- Post-delete state of the cascade scenario of the spec: create a
collection, create a record under it, delete the collection. -/
def c1State : DbState :=
  let p1 := create_collection emptyDb "C" none
  let p2 := create_record p1.2 p1.1 (.obj [])
  delete_collection p2.2 p1.1

/-- Counterexample to C1: after delete_collection the collection is
absent but its record is still returned by get_record and still listed
by list_records, so the cascade the claim requires does not happen and
the forbidden observation (collection absent, records present) is
observable. -/
theorem c1_cascade_delete_counterexample :
    get_collection c1State 1 = none ∧
    get_record c1State 1 1 = some ⟨1, .obj []⟩ ∧
    list_records c1State 1 = [⟨1, .obj []⟩] :=
  ⟨rfl, rfl, rfl⟩

/-- C1 as amended: delete_collection removes only the matching
collections row; the records table is untouched, so every record of
the deleted collection remains visible to get_record and list_records
while the collection itself reads back as absent. -/
theorem c1_delete_collection_preserves_records (s : DbState) (id : Int) :
    (delete_collection s id).records = s.records ∧
    get_collection (delete_collection s id) id = none ∧
    (∀ cid rid, get_record (delete_collection s id) cid rid =
      get_record s cid rid) ∧
    (∀ cid, list_records (delete_collection s id) cid = list_records s cid) := by
  refine ⟨rfl, ?_, fun cid rid => rfl, fun cid => rfl⟩
  unfold get_collection delete_collection
  apply List.find?_eq_none.mpr
  intro x hx
  have h2 := (List.mem_filter.mp hx).2
  simp only [Bool.not_eq_eq_eq_not, Bool.not_true] at h2
  simp [h2]

/-- C7: partial update of an existing collection applies exactly the
provided fields: a name-only update rewrites the name and leaves the
stored schema as it was, a schema-only update leaves the name as it
was, and an update providing neither returns the collection unchanged
and leaves the state unchanged. -/
theorem c7_update_collection_partial_frame
    (s : DbState) (id : Int) (c : Collection) (n : String)
    (sc : CollectionSchema) (h : get_collection s id = some c) :
    ((update_collection s id (some n) none).1 = .ok { c with name := n } ∧
      get_collection (update_collection s id (some n) none).2 id =
        some { c with name := n }) ∧
    ((update_collection s id none (some sc)).1 =
        .ok { c with schema := some sc } ∧
      get_collection (update_collection s id none (some sc)).2 id =
        some { c with schema := some sc }) ∧
    update_collection s id none none = (.ok c, s) := by
  have h' : s.collections.find? (fun x => x.id == id) = some c := h
  have hcid : (c.id == id) = true := by
    have h2 := List.find?_some h'
    simpa using h2
  have hupn : updName id n c = { c with name := n } := by
    simp [updName, hcid]
  have hups : updSchema id sc c = { c with schema := some sc } := by
    simp [updSchema, hcid]
  have hget1 : get_collection
      { s with collections := s.collections.map (updName id n) } id =
      some { c with name := n } := by
    unfold get_collection
    rw [show ({ s with collections := s.collections.map (updName id n) } :
        DbState).collections = s.collections.map (updName id n) from rfl,
      find?_map_of_pred_inv (updName id n) _ (updName_pred id n), h']
    simp [hupn]
  have hget2 : get_collection
      { s with collections := s.collections.map (updSchema id sc) } id =
      some { c with schema := some sc } := by
    unfold get_collection
    rw [show ({ s with collections := s.collections.map (updSchema id sc) } :
        DbState).collections = s.collections.map (updSchema id sc) from rfl,
      find?_map_of_pred_inv (updSchema id sc) _ (updSchema_pred id sc), h']
    simp [hups]
  have e1 : update_collection s id (some n) none =
      (.ok { c with name := n },
       { s with collections := s.collections.map (updName id n) }) := by
    have hshape : update_collection s id (some n) none =
        (match get_collection
            { s with collections := s.collections.map (updName id n) } id with
          | some c0 =>
              (.ok c0,
               { s with collections := s.collections.map (updName id n) })
          | none =>
              (.error (.notFound "Collection not found"),
               { s with collections := s.collections.map (updName id n) })) := rfl
    rw [hshape, hget1]
  have e2 : update_collection s id none (some sc) =
      (.ok { c with schema := some sc },
       { s with collections := s.collections.map (updSchema id sc) }) := by
    have hshape : update_collection s id none (some sc) =
        (match get_collection
            { s with collections := s.collections.map (updSchema id sc) } id with
          | some c0 =>
              (.ok c0,
               { s with collections := s.collections.map (updSchema id sc) })
          | none =>
              (.error (.notFound "Collection not found"),
               { s with collections := s.collections.map (updSchema id sc) })) := rfl
    rw [hshape, hget2]
  have e3 : update_collection s id none none = (.ok c, s) := by
    have hshape : update_collection s id none none =
        (match get_collection s id with
          | some c0 => (.ok c0, s)
          | none => (.error (.notFound "Collection not found"), s)) := rfl
    rw [hshape, h]
  exact ⟨⟨by rw [e1], by rw [e1]; exact hget1⟩,
    ⟨by rw [e2], by rw [e2]; exact hget2⟩, e3⟩

/-- Witness for C7 on a database holding one collection. -/
theorem c7_update_collection_witness :
    update_collection (create_collection emptyDb "Users" none).2 1 none none =
      (.ok ⟨1, "Users", none⟩, (create_collection emptyDb "Users" none).2) :=
  (c7_update_collection_partial_frame
    (create_collection emptyDb "Users" none).2 1 ⟨1, "Users", none⟩
    "New Users" titleSchema rfl).2.2

/-- C6: updating a nonexistent collection or record yields the
not-found error, never a default value. This holds as stated for the
per-connection backend (and for update_collection on both backends,
which run the same statement sequence); for update_record on the
serialized backend the third conjunct records what actually happens
there: the operation re-enters its own mutex and never completes, so
no error at all is returned. -/
theorem c6_update_nonexistent_not_found :
    (∀ (s : DbState) (id : Int) (n : Option String)
        (sc : Option CollectionSchema),
        get_collection s id = none →
        (update_collection s id n sc).1 =
          .error (.notFound "Collection not found")) ∧
    (∀ (s : DbState) (cid rid : Int) (d : JsonValue),
        get_record s cid rid = none →
        (update_record s cid rid d).1 =
          .error (.notFound "Record not found")) ∧
    runTrace false (lockTraceB .updateRecord) = none := by
  refine ⟨?_, ?_, rfl⟩
  · intro s id n sc h
    have h' : s.collections.find? (fun x => x.id == id) = none := h
    rcases n with _ | n <;> rcases sc with _ | sc
    · have hshape : update_collection s id none none =
          (match get_collection s id with
            | some c0 => (.ok c0, s)
            | none => (.error (.notFound "Collection not found"), s)) := rfl
      rw [hshape, h]
    · have hnone : get_collection
          { s with collections := s.collections.map (updSchema id sc) } id =
          none := by
        unfold get_collection
        show (s.collections.map (updSchema id sc)).find?
          (fun x => x.id == id) = none
        exact find?_map_none (updSchema_pred id sc) h'
      have hshape : update_collection s id none (some sc) =
          (match get_collection
              { s with collections := s.collections.map (updSchema id sc) } id with
            | some c0 =>
                (.ok c0,
                 { s with collections := s.collections.map (updSchema id sc) })
            | none =>
                (.error (.notFound "Collection not found"),
                 { s with collections := s.collections.map (updSchema id sc) })) :=
        rfl
      rw [hshape, hnone]
    · have hnone : get_collection
          { s with collections := s.collections.map (updName id n) } id =
          none := by
        unfold get_collection
        show (s.collections.map (updName id n)).find?
          (fun x => x.id == id) = none
        exact find?_map_none (updName_pred id n) h'
      have hshape : update_collection s id (some n) none =
          (match get_collection
              { s with collections := s.collections.map (updName id n) } id with
            | some c0 =>
                (.ok c0,
                 { s with collections := s.collections.map (updName id n) })
            | none =>
                (.error (.notFound "Collection not found"),
                 { s with collections := s.collections.map (updName id n) })) :=
        rfl
      rw [hshape, hnone]
    · have hnone : get_collection
          { s with collections :=
              (s.collections.map (updName id n)).map (updSchema id sc) } id =
          none := by
        unfold get_collection
        show ((s.collections.map (updName id n)).map (updSchema id sc)).find?
          (fun x => x.id == id) = none
        exact find?_map_none (updSchema_pred id sc)
          (find?_map_none (updName_pred id n) h')
      have hshape : update_collection s id (some n) (some sc) =
          (match get_collection
              { s with collections :=
                  (s.collections.map (updName id n)).map (updSchema id sc) } id with
            | some c0 =>
                (.ok c0,
                 { s with collections :=
                     (s.collections.map (updName id n)).map (updSchema id sc) })
            | none =>
                (.error (.notFound "Collection not found"),
                 { s with collections :=
                     (s.collections.map (updName id n)).map (updSchema id sc) })) :=
        rfl
      rw [hshape, hnone]
  · intro s cid rid d h
    have h' : s.records.find?
        (fun r => r.collection_id == cid && r.id == rid) = none := by
      cases hf : s.records.find?
          (fun r => r.collection_id == cid && r.id == rid) with
      | none => rfl
      | some r =>
        unfold get_record at h
        rw [hf] at h
        cases h
    have hnone : get_record
        { s with records := s.records.map (updData cid rid d) } cid rid =
        none := by
      unfold get_record
      show ((s.records.map (updData cid rid d)).find?
        (fun r => r.collection_id == cid && r.id == rid)).map rowToRecord = none
      rw [find?_map_none (updData_pred cid rid d) h']
      rfl
    have hshape : update_record s cid rid d =
        (match get_record
            { s with records := s.records.map (updData cid rid d) } cid rid with
          | some r =>
              (.ok r, { s with records := s.records.map (updData cid rid d) })
          | none =>
              (.error (.notFound "Record not found"),
               { s with records := s.records.map (updData cid rid d) })) := rfl
    rw [hshape, hnone]

/-- Witness for C6 on the empty database, where no id exists. -/
theorem c6_update_nonexistent_witness :
    (update_collection emptyDb 1 (some "New Users") none).1 =
      .error (.notFound "Collection not found") ∧
    (update_record emptyDb 1 1 (.obj [])).1 =
      .error (.notFound "Record not found") :=
  ⟨c6_update_nonexistent_not_found.1 emptyDb 1 (some "New Users") none rfl,
   c6_update_nonexistent_not_found.2.1 emptyDb 1 1 (.obj []) rfl⟩

/-- C8, evaluated on the lock trace model of the serialized backend:
nine of the ten operations acquire the mutex once and release it, but
update_record attempts a second acquire while its own guard is still
held, and on a non-reentrant mutex that acquire never completes, so
the operation blocks forever instead of holding the lock exactly once
for its duration. -/
theorem c8_serialized_lock_discipline :
    runTrace false (lockTraceB .updateRecord) = none ∧
    runTrace false (lockTraceB .createCollection) = some false ∧
    runTrace false (lockTraceB .getCollection) = some false ∧
    runTrace false (lockTraceB .listCollections) = some false ∧
    runTrace false (lockTraceB .updateCollection) = some false ∧
    runTrace false (lockTraceB .deleteCollection) = some false ∧
    runTrace false (lockTraceB .createRecord) = some false ∧
    runTrace false (lockTraceB .listRecords) = some false ∧
    runTrace false (lockTraceB .getRecord) = some false ∧
    runTrace false (lockTraceB .deleteRecord) = some false :=
  ⟨rfl, rfl, rfl, rfl, rfl, rfl, rfl, rfl, rfl, rfl⟩

end Tinybase
